import Mathlib

/-!
Verification of the quadcopter flight-control loop of this repository
(`src/scenes/04-quadcopter.tsx` and `src/utils/scale.ts`), shallowly
embedded over exact rational arithmetic.  The embedding follows the
per-frame `useFrame` body of the `Drone` component: control-source
resolution, battery charge/drain, pitch/roll auto-balance, lift scaling,
yaw, and the force/velocity writes to the physics body.
-/

namespace Quadcopter

/-- Embeds `linearScale` from `src/utils/scale.ts`: maps `value` from the
range `yRange` onto the range `xRange` by linear interpolation, with no
clamping (values outside `yRange` extrapolate). -/
def linearScale (value : ℚ) (yRange xRange : ℚ × ℚ) : ℚ :=
  let xMin := xRange.1
  let xMax := xRange.2
  let yMin := yRange.1
  let yMax := yRange.2
  let percent := (value - yMin) / (yMax - yMin)
  percent * (xMax - xMin) + xMin

/-- Modelled from the spec: `src/utils/clamp` is imported by the scene but its
source file is not present in the repository snapshot.  Call sites pass the
arguments as `clamp(value, upper, lower)` (e.g. `clamp(x, 1, 0)`), and the
spec describes the operation as keeping the value within the closed range. -/
def clamp (value upper lower : ℚ) : ℚ :=
  max lower (min upper value)

/-- Embeds `parse`: `parseFloat(num.toFixed(3))`, i.e. rounding to three
decimal places (JavaScript `toFixed` picks the larger candidate on ties). -/
def parse (q : ℚ) : ℚ :=
  (round (1000 * q) : ℚ) / 1000

/-! Constants from the `constants` object of `04-quadcopter.tsx`. -/

/-- Embeds `constants.maxAltitude`. -/
def maxAltitude : ℚ := 2.5

/-- Embeds `constants.droneAttributes.height`. -/
def droneHeight : ℚ := 0.4

/-- Embeds `constants.droneAttributes.ampleLift`. -/
def ampleLift : ℚ := 2.4

/-- Embeds `constants.droneAttributes.stableLift`. -/
def stableLift : ℚ := 1.96

/-- Embeds `constants.droneAttributes.failingLift`. -/
def failingLift : ℚ := 1.915

/-- Embeds `constants.autoBalance.pitchCorrection`. -/
def pitchCorrection : ℚ := -5

/-- Embeds `constants.autoBalance.rollCorrection`. -/
def rollCorrection : ℚ := -5

/-- Embeds `constants.collisionBodies.drone`. -/
def droneName : String := "DRONE"

/-- Embeds `constants.collisionBodies.station`. -/
def stationName : String := "STATION"

/-! Data model: the zustand stores and per-frame locals. -/

/-- Embeds the `mutation` record of `useDroneControlsStore`: the shared input
buffer written by the keyboard branch of the frame loop and by the joystick
UI callbacks, and read by the frame loop. -/
structure ControlsMutation where
  pitchInput : ℚ
  rollInput : ℚ
  throttleInput : ℚ
  yawInput : ℚ
deriving DecidableEq, Repr

/-- Embeds the values read from `controller.controls` when the keyboard is the
active control method: the four boolean gates and the axis components used by
the frame loop (`pitchRoll.value.y`, `pitchRoll.value.x`, `thrustYaw.value.x`). -/
structure KeyboardControls where
  pitching : Bool
  rolling : Bool
  throttling : Bool
  yawing : Bool
  pitchRollY : ℚ
  pitchRollX : ℚ
  thrustYawX : ℚ
deriving DecidableEq, Repr

/-- Embeds `constants.controlMethods`. -/
inductive ControlMethod where
  | keyboard
  | joystick
deriving DecidableEq, Repr

/-- Embeds the non-mutation part of `useDroneControlsStore`:
`{ keyboardActive, joystickActive }`. -/
structure ControlSourceState where
  keyboardActive : Bool
  joystickActive : Bool
deriving DecidableEq, Repr

/-- Embeds `useDroneBatteryStore`: `charging` plus the `percentage` mutation. -/
structure BatteryState where
  charging : Bool
  percentage : ℚ
deriving DecidableEq, Repr

/-- Embeds the `mutation` record of `useDroneFlightStore`. -/
structure FlightMutation where
  altitude : ℚ
  charging : Bool
  autoBalance : Bool
  liftForce : ℚ
  yawVelocity : ℚ
  pitchVelocity : ℚ
  pitchAngle : ℚ
  rollVelocity : ℚ
  rollAngle : ℚ
deriving DecidableEq, Repr

/-- The four per-frame boolean gate locals (`pitching`, `rolling`,
`throttling`, `yawing`) of the `useFrame` body. -/
structure Gates where
  pitching : Bool
  rolling : Bool
  throttling : Bool
  yawing : Bool
deriving DecidableEq, Repr

/-- A rational 3-vector, standing in for the `Triplet` force/torque values
handed to the physics body. -/
structure V3 where
  x : ℚ
  y : ℚ
  z : ℚ
deriving DecidableEq, Repr

/-- The per-frame inputs that come from outside the stores: the active control
method, the keyboard controller snapshot, the frame delta, the drone's world
`y` position, and the Euler angles decomposed from the body quaternion. -/
structure FrameInput where
  source : Option ControlMethod
  kb : KeyboardControls
  dt : ℚ
  worldY : ℚ
  eulerX : ℚ
  eulerZ : ℚ
deriving DecidableEq, Repr

/-- Everything the frame writes: the stores, the persistent `lift` ref, the
per-frame force values, and the physics-body writes. -/
structure FrameOutput where
  controls : ControlsMutation
  battery : BatteryState
  flight : FlightMutation
  lift : ℚ
  pitch : ℚ
  roll : ℚ
  yaw : ℚ
  appliedForce : V3
  angularVelocityY : ℚ
  localTorque : V3
deriving DecidableEq, Repr

/-- Embeds the initial `ControlSourceState` (`keyboardActive: false,
joystickActive: false`). -/
def initSourceState : ControlSourceState := ⟨false, false⟩

/-- Embeds the initial controls mutation (all inputs `0`). -/
def initControls : ControlsMutation := ⟨0, 0, 0, 0⟩

/-- Embeds the initial battery store (`charging: false, percentage: 100`). -/
def initBattery : BatteryState := ⟨false, 100⟩

/-- Embeds the initial flight mutation of `useDroneFlightStore`. -/
def initFlight : FlightMutation :=
  { altitude := 0
    charging := false
    autoBalance := true
    liftForce := 0
    yawVelocity := 0
    pitchVelocity := 0
    pitchAngle := 0
    rollVelocity := 0
    rollAngle := 0 }

/-! Control source arbitration. -/

/-- Embeds the device-change events delivered to `controller.onDeviceChange`:
the handler matches on `KeyboardDevice` and `TouchDevice` and ignores any
other device class. -/
inductive DeviceEvent where
  | keyboardDevice
  | touchDevice
  | unknownDevice
deriving DecidableEq, Repr

/-- Embeds the `controller.onDeviceChange` handler: a `KeyboardDevice` runs
`activateKeyboard` (`setKeyboardActive(true); setJoystickActive(false)`), a
`TouchDevice` runs `activateJoystick`, anything else falls through. -/
def onDeviceChange (s : ControlSourceState) (d : DeviceEvent) : ControlSourceState :=
  match d with
  | DeviceEvent.keyboardDevice => ⟨true, false⟩
  | DeviceEvent.touchDevice => ⟨false, true⟩
  | DeviceEvent.unknownDevice => s

/-- Embeds the `currentControls` selector: keyboard wins, then joystick,
else `null`. -/
def currentSource (s : ControlSourceState) : Option ControlMethod :=
  if s.keyboardActive then some ControlMethod.keyboard
  else if s.joystickActive then some ControlMethod.joystick
  else none

/-- Exactly one of the two source flags is set. -/
def exactlyOneActive (s : ControlSourceState) : Prop :=
  (s.keyboardActive = true ∧ s.joystickActive = false) ∨
    (s.keyboardActive = false ∧ s.joystickActive = true)

instance (s : ControlSourceState) : Decidable (exactlyOneActive s) := by
  unfold exactlyOneActive
  infer_instance

/-- Embeds the gate/input resolution at the top of the `useFrame` body: the
keyboard branch reads gates from the controller and writes the shared buffer;
the joystick branch derives the gates from the last-written buffer values and
leaves the buffer untouched; with no active method all gates stay `false`. -/
def resolveControls (source : Option ControlMethod) (kb : KeyboardControls)
    (cm : ControlsMutation) : Gates × ControlsMutation :=
  match source with
  | some ControlMethod.keyboard =>
    let cm1 := { cm with throttleInput := if kb.throttling then (1 : ℚ) else 0 }
    let cm2 := if kb.pitching then { cm1 with pitchInput := kb.pitchRollY } else cm1
    let cm3 := if kb.rolling then { cm2 with rollInput := kb.pitchRollX } else cm2
    let cm4 := if kb.yawing then { cm3 with yawInput := kb.thrustYawX * (-1) } else cm3
    (⟨kb.pitching, kb.rolling, kb.throttling, kb.yawing⟩, cm4)
  | some ControlMethod.joystick =>
    (⟨decide (cm.pitchInput ≠ 0), decide (cm.rollInput ≠ 0),
      decide (cm.throttleInput > 0), decide (cm.yawInput ≠ 0)⟩, cm)
  | none => (⟨false, false, false, false⟩, cm)

/-! Battery model. -/

/-- Embeds the charge write: `percentage = Math.min(percentage + 0.2, 100)`. -/
def chargeStep (p : ℚ) : ℚ := min (p + 0.2) 100

/-- Embeds the drain write: `percentage = Math.max(percentage - 0.025, 0)`. -/
def drainStep (p : ℚ) : ℚ := max (p - 0.025) 0

/-- A single write to `percentage` within a frame: either the charge
increment or the drain decrement. -/
inductive BatteryOp where
  | chargeOp
  | drainOp
deriving DecidableEq, Repr

/-- Applies one battery write. -/
def applyBatteryOp (p : ℚ) (op : BatteryOp) : ℚ :=
  match op with
  | BatteryOp.chargeOp => chargeStep p
  | BatteryOp.drainOp => drainStep p

/-- Embeds the `Station` trigger's `onCollideBegin` callback: sets
`charging := true` iff the colliding body is named `"DRONE"`. -/
def onCollideBegin (bodyName : String) (s : BatteryState) : BatteryState :=
  if bodyName = droneName then { s with charging := true } else s

/-- Embeds the `Station` trigger's `onCollideEnd` callback: sets
`charging := false` iff the colliding body is named `"DRONE"`. -/
def onCollideEnd (bodyName : String) (s : BatteryState) : BatteryState :=
  if bodyName = droneName then { s with charging := false } else s

/-! Lift scaling. -/

/-- Embeds `scaledAmpleLift`: `ampleLift` rescaled toward `failingLift` as the
battery percentage falls from 100 to 0. -/
def scaledAmpleLift (p : ℚ) : ℚ :=
  linearScale p (100, 0) (ampleLift, failingLift)

/-- Embeds `scaledStableLift`: `stableLift` rescaled toward `failingLift` as
the battery percentage falls from 100 to 0. -/
def scaledStableLift (p : ℚ) : ℚ :=
  linearScale p (100, 0) (stableLift, failingLift)

/-- Embeds `scaledLift`: the per-frame target lift, interpolated from
`scaledStableLift` (at `maxAltitude`) to `scaledAmpleLift` (at altitude 0) as
a function of the stored altitude. -/
def scaledLift (altitude p : ℚ) : ℚ :=
  linearScale altitude (maxAltitude, 0) (scaledStableLift p, scaledAmpleLift p)

/-! The per-frame update. -/

/-- Embeds the body of the `useFrame` callback of the `Drone` component, in
source order: resolve the control source, compute altitude, charge the
battery if docked, compute pitch and roll (manual input or auto-balance),
compute the battery- and altitude-scaled lift, drain the battery and set lift
while throttling (else decay lift), compute yaw, then the physics-body writes
(`applyLocalForce`, `angularVelocity.set`, the local pre-rotation torque) and
the store write-backs.  Visual-only effects (shader uniform, propeller spin,
camera follow) are omitted, as is the world-space rotation of the torque
vector, which leaves the embedding. -/
def frameStep (inp : FrameInput) (cm : ControlsMutation) (battery : BatteryState)
    (flight : FlightMutation) (liftPrev : ℚ) : FrameOutput :=
  let rc := resolveControls inp.source inp.kb cm
  let g := rc.1
  let cm' := rc.2
  let altitude := |inp.worldY - droneHeight / 2|
  let p1 := if battery.charging then chargeStep battery.percentage else battery.percentage
  let maxPitch : ℚ := 1
  let pitch :=
    if g.pitching then cm'.pitchInput * maxPitch
    else maxPitch * flight.pitchAngle * pitchCorrection *
      (if flight.autoBalance then 1 else 0)
  let maxRoll : ℚ := 1
  let roll :=
    if g.rolling then cm'.rollInput * maxRoll
    else maxRoll * flight.rollAngle * rollCorrection *
      (if flight.autoBalance then 1 else 0)
  let sLift := scaledLift flight.altitude p1
  let p2 := if g.throttling then drainStep p1 else p1
  let lift := if g.throttling then sLift * cm'.throttleInput else max 0 (liftPrev - 0.02)
  let maxYaw : ℚ := 1.5
  let yaw := cm'.yawInput * maxYaw * (if g.yawing then 1 else 0)
  let forwardMomentum := clamp (lift * 0.025) 1 0
  let appliedLift := if p2 > 0 then lift else 0
  let canManouvre := decide (altitude > 0.01)
  let torqueScale : ℚ := 0.1
  { controls := cm'
    battery := ⟨battery.charging, p2⟩
    flight :=
      { altitude := parse altitude
        charging := flight.charging
        autoBalance := flight.autoBalance
        liftForce := parse lift
        yawVelocity := parse yaw
        pitchVelocity := parse pitch
        pitchAngle := parse inp.eulerX
        rollVelocity := parse roll
        rollAngle := parse inp.eulerZ }
    lift := lift
    pitch := pitch
    roll := roll
    yaw := yaw
    appliedForce := ⟨0, appliedLift, forwardMomentum⟩
    angularVelocityY := yaw * (if canManouvre then 1 else 0)
    localTorque := ⟨pitch * torqueScale, 0, roll * torqueScale⟩ }

/-- The persistent simulation state threaded between frames: the three stores
plus the `lift` ref. -/
structure SimState where
  controls : ControlsMutation
  battery : BatteryState
  flight : FlightMutation
  lift : ℚ
deriving DecidableEq, Repr

/-- One frame of the simulation as a state transformer. -/
def stepState (inp : FrameInput) (s : SimState) : SimState :=
  let out := frameStep inp s.controls s.battery s.flight s.lift
  ⟨out.controls, out.battery, out.flight, out.lift⟩

/-- The initial simulation state, as the stores are created. -/
def initState : SimState := ⟨initControls, initBattery, initFlight, 0⟩

/-- Embeds `handleLeftStickMove` of the `Scene` component: writes the yaw and
(thresholded, nonnegative-only) throttle inputs into the shared buffer. -/
def handleLeftStickMove (ex ey : ℚ) (cm : ControlsMutation) : ControlsMutation :=
  let cm1 := { cm with yawInput := ex * (-1) }
  if ey ≥ 0 then { cm1 with throttleInput := max ey 0.9 } else cm1

/-- Embeds `handleLeftStickStop`. -/
def handleLeftStickStop (cm : ControlsMutation) : ControlsMutation :=
  { cm with throttleInput := 0, yawInput := 0 }

/-- Embeds `handleRightStickMove`: writes roll and pitch inputs. -/
def handleRightStickMove (ex ey : ℚ) (cm : ControlsMutation) : ControlsMutation :=
  { cm with rollInput := ex, pitchInput := ey }

/-- Embeds `handleRightStickStop`. -/
def handleRightStickStop (cm : ControlsMutation) : ControlsMutation :=
  { cm with rollInput := 0, pitchInput := 0 }

end Quadcopter

namespace Quadcopter

/-! Closed forms for the lift-scaling curves. -/

/-- Closed form of `scaledAmpleLift`. -/
lemma scaledAmpleLift_eq (p : ℚ) : scaledAmpleLift p = (38300 + 97 * p) / 20000 := by
  simp only [scaledAmpleLift, linearScale, ampleLift, failingLift]
  norm_num
  ring

/-- Closed form of `scaledStableLift`. -/
lemma scaledStableLift_eq (p : ℚ) : scaledStableLift p = (38300 + 9 * p) / 20000 := by
  simp only [scaledStableLift, linearScale, stableLift, failingLift]
  norm_num
  ring

/-- Closed form of `scaledLift`. -/
lemma scaledLift_eq (a p : ℚ) :
    scaledLift a p = (38300 + 9 * p) / 20000 + (5 - 2 * a) / 5 * (11 * p / 2500) := by
  simp only [scaledLift, linearScale, maxAltitude, scaledAmpleLift_eq, scaledStableLift_eq]
  norm_num
  ring

end Quadcopter

namespace Quadcopter

/-- C1 (counterexample): the claim asserts that for every altitude greater
than or equal to `maxAltitude` the target lift equals the battery-scaled
stable lift, and that lift is monotonically decreasing in altitude for every
battery percentage in `[0, 100]`.  At altitude `5 > maxAltitude` and full
battery the unclamped interpolation extrapolates strictly below the stable
value, and at battery percentage `0` the curve is constant in altitude. -/
theorem scaledLift_plateau_counterexample :
    maxAltitude ≤ 5 ∧
    scaledLift 5 100 ≠ scaledStableLift 100 ∧
    scaledLift 5 100 < scaledStableLift 100 ∧
    scaledLift 1 0 = scaledLift 2 0 := by
  refine ⟨by norm_num [maxAltitude], ?_, ?_, ?_⟩
  · rw [scaledLift_eq, scaledStableLift_eq]
    norm_num
  · rw [scaledLift_eq, scaledStableLift_eq]
    norm_num
  · rw [scaledLift_eq, scaledLift_eq]
    norm_num

/-- C1 (amended): for every battery percentage `p ∈ [0, 100]`, the target
lift equals the battery-scaled ample lift at altitude `0` and the
battery-scaled stable lift at altitude `maxAltitude` exactly; it is monotone
non-increasing in altitude everywhere (strictly decreasing when `p > 0`),
and for altitude at or above `maxAltitude` it is at most the stable value
(extrapolating linearly below it rather than plateauing). -/
theorem scaledLift_endpoints_monotone (p : ℚ) (hp0 : 0 ≤ p) (hp1 : p ≤ 100) :
    scaledLift 0 p = scaledAmpleLift p ∧
    scaledLift maxAltitude p = scaledStableLift p ∧
    (∀ a1 a2 : ℚ, a1 ≤ a2 → scaledLift a2 p ≤ scaledLift a1 p) ∧
    (0 < p → ∀ a1 a2 : ℚ, a1 < a2 → scaledLift a2 p < scaledLift a1 p) ∧
    (∀ a : ℚ, maxAltitude ≤ a → scaledLift a p ≤ scaledStableLift p) := by
  refine ⟨?_, ?_, ?_, ?_, ?_⟩
  · rw [scaledLift_eq, scaledAmpleLift_eq]
    ring
  · rw [scaledLift_eq, scaledStableLift_eq, maxAltitude]
    norm_num
  · intro a1 a2 h
    rw [scaledLift_eq, scaledLift_eq]
    nlinarith [mul_nonneg (by linarith : (0:ℚ) ≤ a2 - a1) hp0]
  · intro hp a1 a2 h
    rw [scaledLift_eq, scaledLift_eq]
    nlinarith [mul_pos (by linarith : (0:ℚ) < a2 - a1) hp]
  · intro a ha
    rw [maxAltitude] at ha
    rw [scaledLift_eq, scaledStableLift_eq]
    nlinarith [mul_nonneg (by linarith : (0:ℚ) ≤ a - 5/2) hp0]

/-- C1 (witness): the amended endpoint/monotonicity theorem applied at a
concrete battery percentage. -/
theorem scaledLift_endpoints_monotone_witness :
    scaledLift 0 50 = scaledAmpleLift 50 ∧ scaledLift maxAltitude 50 = scaledStableLift 50 :=
  ⟨(scaledLift_endpoints_monotone 50 (by norm_num) (by norm_num)).1,
    (scaledLift_endpoints_monotone 50 (by norm_num) (by norm_num)).2.1⟩

/-- One battery write keeps the percentage inside `[0, 100]`. -/
lemma applyBatteryOp_bounds (p : ℚ) (op : BatteryOp) (h0 : 0 ≤ p) (h1 : p ≤ 100) :
    0 ≤ applyBatteryOp p op ∧ applyBatteryOp p op ≤ 100 := by
  cases op with
  | chargeOp =>
    constructor
    · exact le_min (by linarith) (by norm_num)
    · exact min_le_right (p + 0.2) 100
  | drainOp =>
    constructor
    · exact le_max_right _ _
    · exact max_le (by linarith) (by norm_num)

/-- C2: any sequence of per-frame charge increments and drain decrements
keeps `BatteryState.percentage` within `[0, 100]` when it starts there,
whatever the order of charge and drain writes. -/
theorem percentage_stays_in_range (p : ℚ) (ops : List BatteryOp)
    (h0 : 0 ≤ p) (h1 : p ≤ 100) :
    0 ≤ ops.foldl applyBatteryOp p ∧ ops.foldl applyBatteryOp p ≤ 100 := by
  induction ops generalizing p with
  | nil => exact ⟨h0, h1⟩
  | cons op rest ih =>
    simp only [List.foldl_cons]
    exact ih (applyBatteryOp p op) (applyBatteryOp_bounds p op h0 h1).1
      (applyBatteryOp_bounds p op h0 h1).2

/-- C2 (witness): the range invariant applied to a concrete charge-then-drain
frame starting from a concrete percentage. -/
theorem percentage_stays_in_range_witness :
    0 ≤ [BatteryOp.chargeOp, BatteryOp.drainOp].foldl applyBatteryOp 50 ∧
      [BatteryOp.chargeOp, BatteryOp.drainOp].foldl applyBatteryOp 50 ≤ 100 :=
  percentage_stays_in_range 50 [BatteryOp.chargeOp, BatteryOp.drainOp]
    (by norm_num) (by norm_num)

end Quadcopter

namespace Quadcopter

/-- Any device-change event preserves the exactly-one-active invariant. -/
lemma exactlyOneActive_onDeviceChange (s : ControlSourceState) (e : DeviceEvent)
    (h : exactlyOneActive s) : exactlyOneActive (onDeviceChange s e) := by
  cases e <;> simp [onDeviceChange, exactlyOneActive] <;> exact h

/-- A recognized device-change event establishes the exactly-one-active
invariant from any state. -/
lemma exactlyOneActive_of_recognized (s : ControlSourceState) (e : DeviceEvent)
    (he : e ≠ DeviceEvent.unknownDevice) : exactlyOneActive (onDeviceChange s e) := by
  cases e with
  | keyboardDevice => left; simp [onDeviceChange]
  | touchDevice => right; simp [onDeviceChange]
  | unknownDevice => exact absurd rfl he

/-- Folding further events preserves the exactly-one-active invariant. -/
lemma exactlyOneActive_foldl (evs : List DeviceEvent) (s : ControlSourceState)
    (h : exactlyOneActive s) : exactlyOneActive (evs.foldl onDeviceChange s) := by
  induction evs generalizing s with
  | nil => exact h
  | cons e rest ih =>
    simp only [List.foldl_cons]
    exact ih (onDeviceChange s e) (exactlyOneActive_onDeviceChange s e h)

/-- After any event sequence containing a recognized device, exactly one flag
is active, whatever the starting state. -/
lemma exactlyOneActive_of_mem (evs : List DeviceEvent) (s : ControlSourceState)
    (h : ∃ e ∈ evs, e ≠ DeviceEvent.unknownDevice) :
    exactlyOneActive (evs.foldl onDeviceChange s) := by
  induction evs generalizing s with
  | nil => simp at h
  | cons e rest ih =>
    simp only [List.foldl_cons]
    by_cases he : e = DeviceEvent.unknownDevice
    · rcases h with ⟨e', he', hrec⟩
      rcases List.mem_cons.mp he' with rfl | hmem
      · exact absurd he hrec
      · exact ih (onDeviceChange s e) ⟨e', hmem, hrec⟩
    · exact exactlyOneActive_foldl rest _ (exactlyOneActive_of_recognized s e he)

/-- C3: starting from the both-false initial state, after any device-change
event sequence containing at least one recognized device, exactly one of
`keyboardActive` and `joystickActive` is true; a keyboard event activates the
keyboard and deactivates the joystick in the same update, a touch event does
the opposite, and an unrecognized device leaves the state unchanged. -/
theorem device_arbitration (evs : List DeviceEvent)
    (h : ∃ e ∈ evs, e ≠ DeviceEvent.unknownDevice) :
    exactlyOneActive (evs.foldl onDeviceChange initSourceState) ∧
    (∀ s : ControlSourceState,
      onDeviceChange s DeviceEvent.keyboardDevice = ⟨true, false⟩) ∧
    (∀ s : ControlSourceState,
      onDeviceChange s DeviceEvent.touchDevice = ⟨false, true⟩) ∧
    (∀ s : ControlSourceState, onDeviceChange s DeviceEvent.unknownDevice = s) :=
  ⟨exactlyOneActive_of_mem evs initSourceState h,
    fun _ => rfl, fun _ => rfl, fun _ => rfl⟩

/-- C3 (witness): the arbitration theorem applied to a concrete sequence
ending in a touch event. -/
theorem device_arbitration_witness :
    exactlyOneActive
      ([DeviceEvent.keyboardDevice, DeviceEvent.unknownDevice,
        DeviceEvent.touchDevice].foldl onDeviceChange initSourceState) :=
  (device_arbitration
    [DeviceEvent.keyboardDevice, DeviceEvent.unknownDevice, DeviceEvent.touchDevice]
    ⟨DeviceEvent.keyboardDevice, by simp, by simp⟩).1

end Quadcopter

namespace Quadcopter

/-- C4: on any frame whose pitching (resp. rolling) gate is inactive, the
computed pitch (resp. roll) equals the current angle times the correction
constant when `autoBalance` is on — hence has sign opposite to the angle and
magnitude `|angle| * |correction|` — and is exactly `0` when `autoBalance`
is off. -/
theorem autoBalance_pitch_roll (inp : FrameInput) (cm : ControlsMutation)
    (bat : BatteryState) (flight : FlightMutation) (liftPrev : ℚ) :
    ((resolveControls inp.source inp.kb cm).1.pitching = false →
      (flight.autoBalance = true →
        (frameStep inp cm bat flight liftPrev).pitch = flight.pitchAngle * pitchCorrection ∧
        (0 < flight.pitchAngle → (frameStep inp cm bat flight liftPrev).pitch < 0) ∧
        (flight.pitchAngle < 0 → 0 < (frameStep inp cm bat flight liftPrev).pitch) ∧
        |(frameStep inp cm bat flight liftPrev).pitch| =
          |flight.pitchAngle| * |pitchCorrection|) ∧
      (flight.autoBalance = false → (frameStep inp cm bat flight liftPrev).pitch = 0)) ∧
    ((resolveControls inp.source inp.kb cm).1.rolling = false →
      (flight.autoBalance = true →
        (frameStep inp cm bat flight liftPrev).roll = flight.rollAngle * rollCorrection ∧
        (0 < flight.rollAngle → (frameStep inp cm bat flight liftPrev).roll < 0) ∧
        (flight.rollAngle < 0 → 0 < (frameStep inp cm bat flight liftPrev).roll) ∧
        |(frameStep inp cm bat flight liftPrev).roll| =
          |flight.rollAngle| * |rollCorrection|) ∧
      (flight.autoBalance = false → (frameStep inp cm bat flight liftPrev).roll = 0)) := by
  constructor
  · intro hg
    constructor
    · intro hab
      have hval : (frameStep inp cm bat flight liftPrev).pitch =
          flight.pitchAngle * pitchCorrection := by
        simp [frameStep, hg, hab]
      refine ⟨hval, ?_, ?_, ?_⟩
      · intro hangle
        rw [hval, pitchCorrection]
        nlinarith
      · intro hangle
        rw [hval, pitchCorrection]
        nlinarith
      · rw [hval, abs_mul]
    · intro hab
      simp [frameStep, hg, hab]
  · intro hg
    constructor
    · intro hab
      have hval : (frameStep inp cm bat flight liftPrev).roll =
          flight.rollAngle * rollCorrection := by
        simp [frameStep, hg, hab]
      refine ⟨hval, ?_, ?_, ?_⟩
      · intro hangle
        rw [hval, rollCorrection]
        nlinarith
      · intro hangle
        rw [hval, rollCorrection]
        nlinarith
      · rw [hval, abs_mul]
    · intro hab
      simp [frameStep, hg, hab]

end Quadcopter

namespace Quadcopter

/-- A concrete frame input with no active control method (all gates inactive). -/
def idleFrameInput : FrameInput :=
  ⟨none, ⟨false, false, false, false, 0, 0, 0⟩, 1/60, droneHeight / 2, 0, 0⟩

/-- A concrete tilted flight store with auto-balance enabled. -/
def tiltedFlight : FlightMutation :=
  { initFlight with pitchAngle := 1/2, rollAngle := -1/3 }

/-- C4 (witness): the auto-balance theorem applied on a concrete idle frame
with a concrete tilt. -/
theorem autoBalance_pitch_roll_witness :
    (frameStep idleFrameInput initControls initBattery tiltedFlight 0).pitch =
      tiltedFlight.pitchAngle * pitchCorrection ∧
    (frameStep idleFrameInput initControls initBattery tiltedFlight 0).roll =
      tiltedFlight.rollAngle * rollCorrection ∧
    (frameStep idleFrameInput initControls initBattery tiltedFlight 0).pitch < 0 ∧
    0 < (frameStep idleFrameInput initControls initBattery tiltedFlight 0).roll :=
  ⟨(((autoBalance_pitch_roll idleFrameInput initControls initBattery tiltedFlight 0).1
      rfl).1 rfl).1,
    (((autoBalance_pitch_roll idleFrameInput initControls initBattery tiltedFlight 0).2
      rfl).1 rfl).1,
    (((autoBalance_pitch_roll idleFrameInput initControls initBattery tiltedFlight 0).1
      rfl).1 rfl).2.1 (by norm_num [tiltedFlight, initFlight]),
    (((autoBalance_pitch_roll idleFrameInput initControls initBattery tiltedFlight 0).2
      rfl).1 rfl).2.2.1 (by norm_num [tiltedFlight, initFlight])⟩

/-- C5: whenever the battery percentage observed by the force computation is
zero — in particular on any frame that starts with an empty, non-charging
battery — the vertical component of the local force applied to the drone
body is exactly `0`, whatever the gates and axis inputs. -/
theorem battery_empty_zero_lift (inp : FrameInput) (cm : ControlsMutation)
    (bat : BatteryState) (flight : FlightMutation) (liftPrev : ℚ) :
    (bat.percentage = 0 → bat.charging = false →
      (frameStep inp cm bat flight liftPrev).appliedForce.y = 0) ∧
    ((frameStep inp cm bat flight liftPrev).battery.percentage = 0 →
      (frameStep inp cm bat flight liftPrev).appliedForce.y = 0) := by
  have hforce : (frameStep inp cm bat flight liftPrev).battery.percentage = 0 →
      (frameStep inp cm bat flight liftPrev).appliedForce.y = 0 := by
    intro hp
    simp only [frameStep] at hp ⊢
    rw [hp]
    simp
  refine ⟨?_, hforce⟩
  intro hp hch
  apply hforce
  simp only [frameStep, hch, Bool.false_eq_true, if_false, hp]
  split
  · simp [drainStep]
    norm_num
  · rfl

end Quadcopter

namespace Quadcopter

/-- A concrete empty, non-charging battery store. -/
def emptyBattery : BatteryState := ⟨false, 0⟩

/-- A concrete frame input with the keyboard throttling at full axis values. -/
def fullThrottleInput : FrameInput :=
  ⟨some ControlMethod.keyboard, ⟨true, true, true, true, 1, 1, 1⟩, 1/60, 3, 0, 0⟩

/-- C5 (witness): a concrete empty-battery, full-throttle frame applies zero
vertical force. -/
theorem battery_empty_zero_lift_witness :
    (frameStep fullThrottleInput initControls emptyBattery initFlight 2).appliedForce.y = 0 :=
  (battery_empty_zero_lift fullThrottleInput initControls emptyBattery initFlight 2).1 rfl rfl

/-- C6: on any frame whose yawing gate is inactive the computed yaw velocity
(and the telemetry value written back) is exactly `0`, with no dependence on
any previous frame's state; independently, the yaw angular velocity written
to the body is `0` whenever the freshly computed altitude is at most `0.01`. -/
theorem yaw_zero_when_inactive (inp : FrameInput) (cm : ControlsMutation)
    (bat : BatteryState) (flight : FlightMutation) (liftPrev : ℚ) :
    ((resolveControls inp.source inp.kb cm).1.yawing = false →
      (frameStep inp cm bat flight liftPrev).yaw = 0 ∧
      (frameStep inp cm bat flight liftPrev).flight.yawVelocity = 0) ∧
    (|inp.worldY - droneHeight / 2| ≤ 0.01 →
      (frameStep inp cm bat flight liftPrev).angularVelocityY = 0) := by
  constructor
  · intro hg
    have hyaw : (frameStep inp cm bat flight liftPrev).yaw = 0 := by
      simp [frameStep, hg]
    refine ⟨hyaw, ?_⟩
    have : (frameStep inp cm bat flight liftPrev).flight.yawVelocity =
        parse (frameStep inp cm bat flight liftPrev).yaw := by
      simp [frameStep]
    rw [this, hyaw, parse]
    norm_num
  · intro halt
    have : ¬ (|inp.worldY - droneHeight / 2| > 0.01) := not_lt.mpr halt
    simp [frameStep, this]

/-- C6 (witness): a concrete non-yawing frame resting on the ground has zero
computed yaw and zero applied yaw angular velocity. -/
theorem yaw_zero_when_inactive_witness :
    (frameStep idleFrameInput initControls initBattery initFlight 0).yaw = 0 ∧
    (frameStep idleFrameInput initControls initBattery initFlight 0).angularVelocityY = 0 :=
  ⟨((yaw_zero_when_inactive idleFrameInput initControls initBattery initFlight 0).1 rfl).1,
    (yaw_zero_when_inactive idleFrameInput initControls initBattery initFlight 0).2
      (by norm_num [idleFrameInput])⟩

/-- C8: on a frame that is both charging and throttling, the capped charge
increment and the floored drain decrement are applied in that order to the
same percentage; away from the caps (`0 < p ≤ 99.8`) the net frame change is
exactly `+0.2 - 0.025 = +0.175`. -/
theorem charge_and_drain_same_frame (inp : FrameInput) (cm : ControlsMutation)
    (bat : BatteryState) (flight : FlightMutation) (liftPrev : ℚ)
    (hthr : (resolveControls inp.source inp.kb cm).1.throttling = true)
    (hch : bat.charging = true)
    (h0 : 0 < bat.percentage) (h1 : bat.percentage ≤ 99.8) :
    (frameStep inp cm bat flight liftPrev).battery.percentage =
      drainStep (chargeStep bat.percentage) ∧
    (frameStep inp cm bat flight liftPrev).battery.percentage =
      bat.percentage + 0.175 := by
  have hval : (frameStep inp cm bat flight liftPrev).battery.percentage =
      drainStep (chargeStep bat.percentage) := by
    simp [frameStep, hthr, hch]
  refine ⟨hval, ?_⟩
  rw [hval, chargeStep, drainStep]
  rw [min_eq_left (by linarith), max_eq_left (by linarith)]
  norm_num
  ring

/-- A concrete half-charged battery store that is docked and charging. -/
def dockedBattery : BatteryState := ⟨true, 50⟩

/-- C8 (witness): the net-change theorem applied on a concrete charging,
throttling frame at fifty percent. -/
theorem charge_and_drain_same_frame_witness :
    (frameStep fullThrottleInput initControls dockedBattery initFlight 0).battery.percentage =
      50 + 0.175 :=
  (charge_and_drain_same_frame fullThrottleInput initControls dockedBattery initFlight 0
    rfl rfl (by norm_num [dockedBattery]) (by norm_num [dockedBattery])).2

/-- C9: the station trigger's collision-begin callback sets `charging` to
true exactly when the colliding body is named `"DRONE"`, the matching
collision-end callback sets it to false under the same condition, any other
body name leaves the battery store untouched, and the per-frame flight
update never modifies `charging`. -/
theorem charging_toggles_on_collision (s : BatteryState) (bodyName : String)
    (inp : FrameInput) (cm : ControlsMutation) (bat : BatteryState)
    (flight : FlightMutation) (liftPrev : ℚ) :
    (onCollideBegin droneName s).charging = true ∧
    (onCollideEnd droneName s).charging = false ∧
    (bodyName ≠ droneName →
      onCollideBegin bodyName s = s ∧ onCollideEnd bodyName s = s) ∧
    (frameStep inp cm bat flight liftPrev).battery.charging = bat.charging := by
  refine ⟨by simp [onCollideBegin], by simp [onCollideEnd], ?_, by simp [frameStep]⟩
  intro hne
  simp [onCollideBegin, onCollideEnd, hne]

/-- C9 (witness): the toggling theorem applied to a concrete battery store
and the station's own body name. -/
theorem charging_toggles_on_collision_witness :
    (onCollideBegin droneName initBattery).charging = true ∧
    (onCollideEnd droneName initBattery).charging = false ∧
    onCollideBegin stationName initBattery = initBattery ∧
    (frameStep idleFrameInput initControls initBattery initFlight 0).battery.charging =
      initBattery.charging := by
  have h := charging_toggles_on_collision initBattery stationName idleFrameInput
    initControls initBattery initFlight 0
  exact ⟨h.1, h.2.1, (h.2.2.1 (by simp [stationName, droneName])).1, h.2.2.2⟩

end Quadcopter

namespace Quadcopter

/-- At altitude zero the target lift never exceeds the ample-lift constant
while the battery is at most full. -/
lemma scaledLift_zero_le_ample (p : ℚ) (hp : p ≤ 100) : scaledLift 0 p ≤ ampleLift := by
  rw [scaledLift_eq, ampleLift]
  norm_num
  linarith

/-- The fixed frame input of the drain scenario: keyboard active and
throttling (hence throttle input forced to `1`), all other gates idle, the
drone resting at altitude zero. -/
def inpC7 : FrameInput :=
  ⟨some ControlMethod.keyboard, ⟨false, false, true, false, 0, 0, 0⟩, 1/60,
    droneHeight / 2, 0, 0⟩

/-- One frame of the drain scenario: a non-charging, sufficiently full
battery at stored altitude zero drains by exactly `0.025`, keeps altitude
zero, and sets lift to the altitude-zero target lift. -/
lemma stepState_inpC7 (s : SimState) (hch : s.battery.charging = false)
    (halt : s.flight.altitude = 0) (hp : 1/40 ≤ s.battery.percentage) :
    (stepState inpC7 s).battery.charging = false ∧
    (stepState inpC7 s).battery.percentage = s.battery.percentage - 0.025 ∧
    (stepState inpC7 s).flight.altitude = 0 ∧
    (stepState inpC7 s).lift = scaledLift 0 s.battery.percentage := by
  refine ⟨?_, ?_, ?_, ?_⟩
  · simp [stepState, frameStep, hch]
  · simp [stepState, frameStep, inpC7, resolveControls, hch, drainStep]
    linarith
  · simp [stepState, frameStep, inpC7, droneHeight, parse]
  · simp [stepState, frameStep, inpC7, resolveControls, hch, halt]

end Quadcopter

namespace Quadcopter

/-- The drain-scenario invariant: after `k ≤ 10` frames the battery is still
not charging, holds exactly `100 - k * 0.025` percent, and the stored
altitude is still zero. -/
lemma inpC7_invariant (k : ℕ) (hk : k ≤ 10) :
    ((stepState inpC7)^[k] initState).battery.charging = false ∧
    ((stepState inpC7)^[k] initState).battery.percentage = 100 - (k : ℚ) * 0.025 ∧
    ((stepState inpC7)^[k] initState).flight.altitude = 0 := by
  induction k with
  | zero => simp [initState, initBattery, initFlight]
  | succ n ih =>
    obtain ⟨h1, h2, h3⟩ := ih (by omega)
    have hn9 : (n : ℚ) ≤ 9 := by
      exact_mod_cast (by omega : n ≤ 9)
    have hp : 1/40 ≤ ((stepState inpC7)^[n] initState).battery.percentage := by
      rw [h2]
      norm_num
      linarith
    have hs := stepState_inpC7 _ h1 h3 hp
    rw [Function.iterate_succ_apply']
    refine ⟨hs.1, ?_, hs.2.2.1⟩
    rw [hs.2.1, h2]
    push_cast
    ring

/-- C7: starting from a full battery at altitude zero with the throttling
gate held and throttle input `1` (and not charging), on each of the first ten
frames the battery percentage drops by exactly `0.025` — in particular it
strictly decreases — and the computed lift stays at most the `ampleLift`
constant. -/
theorem throttle_drain_ten_frames (k : ℕ) (hk : k < 10) :
    ((stepState inpC7)^[k+1] initState).battery.percentage =
      ((stepState inpC7)^[k] initState).battery.percentage - 0.025 ∧
    ((stepState inpC7)^[k+1] initState).battery.percentage <
      ((stepState inpC7)^[k] initState).battery.percentage ∧
    ((stepState inpC7)^[k+1] initState).lift ≤ ampleLift := by
  obtain ⟨h1, h2, h3⟩ := inpC7_invariant k (by omega)
  have hk9 : (k : ℚ) ≤ 9 := by
    exact_mod_cast (by omega : k ≤ 9)
  have hk0 : (0 : ℚ) ≤ (k : ℚ) := Nat.cast_nonneg k
  have hp : 1/40 ≤ ((stepState inpC7)^[k] initState).battery.percentage := by
    rw [h2]
    norm_num
    linarith
  have hs := stepState_inpC7 _ h1 h3 hp
  rw [Function.iterate_succ_apply']
  refine ⟨hs.2.1, ?_, ?_⟩
  · rw [hs.2.1]
    linarith
  · rw [hs.2.2.2]
    apply scaledLift_zero_le_ample
    rw [h2]
    linarith

/-- C7 (witness): the drain theorem applied to the first frame of the
scenario. -/
theorem throttle_drain_ten_frames_witness :
    ((stepState inpC7)^[1] initState).battery.percentage =
      ((stepState inpC7)^[0] initState).battery.percentage - 0.025 ∧
    ((stepState inpC7)^[1] initState).battery.percentage <
      ((stepState inpC7)^[0] initState).battery.percentage ∧
    ((stepState inpC7)^[1] initState).lift ≤ ampleLift :=
  throttle_drain_ten_frames 0 (by norm_num)

end Quadcopter

namespace Quadcopter

/-- Keyboard snapshot for the stale-input scenario's first frame: the pitch
gate held with axis value `1/2`. -/
def staleKb : KeyboardControls := ⟨true, false, false, false, 1/2, 0, 0⟩

/-- An idle keyboard snapshot (nothing pressed) for the second frame. -/
def idleKb : KeyboardControls := ⟨false, false, false, false, 0, 0, 0⟩

/-- Arbiter state after a keyboard device connects. -/
def srcAfterKeyboard : ControlSourceState :=
  onDeviceChange initSourceState DeviceEvent.keyboardDevice

/-- Arbiter state after a touch device then connects. -/
def srcAfterTouch : ControlSourceState :=
  onDeviceChange srcAfterKeyboard DeviceEvent.touchDevice

/-- First frame of the stale-input scenario: keyboard authoritative,
pitching with axis `1/2`. -/
def staleFrame1 : FrameInput :=
  ⟨currentSource srcAfterKeyboard, staleKb, 1/60, droneHeight / 2, 0, 0⟩

/-- Second frame of the stale-input scenario: the joystick is now
authoritative but no joystick event has written the shared buffer. -/
def staleFrame2 : FrameInput :=
  ⟨currentSource srcAfterTouch, idleKb, 1/60, droneHeight / 2, 0, 0⟩

/-- Simulation state after the keyboard frame. -/
def staleState1 : SimState := stepState staleFrame1 initState

set_option maxRecDepth 40000 in
/-- C10: the keyboard frame leaves `pitchInput = 1/2` in the shared buffer;
after the arbiter switches to the joystick, the next frame derives its
pitching gate solely from that stale buffer value — the gate is active and
the computed pitch is the stale `1/2` even though no joystick event has
occurred since the switch. -/
theorem stale_keyboard_input_drives_joystick_frame :
    staleState1.controls.pitchInput = 1/2 ∧
    currentSource srcAfterTouch = some ControlMethod.joystick ∧
    (resolveControls staleFrame2.source staleFrame2.kb staleState1.controls).1.pitching =
      true ∧
    (frameStep staleFrame2 staleState1.controls staleState1.battery staleState1.flight
      staleState1.lift).pitch = 1/2 := by
  with_unfolding_all decide

end Quadcopter
